import Mathlib

/-!
Shallow embedding of the `otik` repository's archive core
(`src/lab4/archiver_huffman.py`, `src/lab4/universal_decoder.py`,
`src/lab4/intelligent_coder.py`), with theorems settling the frozen
claims about it.

Conventions of the embedding:
* Python `bytes` values are `List Nat` (each element a byte value 0-255).
* Fallible Python code is modelled with `Except PyErr`; each `PyErr`
  constructor names the Python exception class raised on that path.
* CPython's `heapq` module (used by `build_huffman_tree`) is modelled
  function-for-function (`heapify`/`heappush`/`heappop` with the
  `_siftup`/`_siftdown` helpers).  Loops whose indices strictly
  decrease (or strictly increase toward a bound) are written with an
  explicit fuel argument that is always at least the number of
  iterations the CPython loop performs, so the fuel-exhausted branch is
  unreachable; this keeps every definition kernel-computable.
* Python file handles are modelled as a remaining-suffix `List Nat`;
  `f.read(n)` takes up to `n` bytes, exactly as Python does at EOF.
-/

deriving instance DecidableEq for Except

namespace Otik

/-- Python exception classes that the modelled code can raise. -/
inductive PyErr where
  | valueError
  | indexError
  | structError
  | attributeError
  | keyError
  | nameError
  | runtimeError
  | typeError
  | zlibError
deriving DecidableEq

/-! ### Little-endian integer packing (struct '<H', '<I', '<Q') -/

/-- `struct.pack('<H', n)` for `n < 2^16`. -/
def le2 (n : Nat) : List Nat := [n % 256, n / 256 % 256]

/-- `struct.pack('<I', n)` for `n < 2^32`. -/
def le4 (n : Nat) : List Nat :=
  [n % 256, n / 256 % 256, n / 65536 % 256, n / 16777216 % 256]

/-- `struct.pack('<Q', n)` for `n < 2^64`. -/
def le8 (n : Nat) : List Nat := le4 (n % 4294967296) ++ le4 (n / 4294967296)

/-- Value of two little-endian bytes (`struct.unpack('<H', ·)`). -/
def le2val (bs : List Nat) : Nat := bs.getD 0 0 + 256 * bs.getD 1 0

/-- Value of four little-endian bytes (`struct.unpack('<I', ·)`). -/
def le4val (bs : List Nat) : Nat :=
  bs.getD 0 0 + 256 * bs.getD 1 0 + 65536 * bs.getD 2 0 + 16777216 * bs.getD 3 0

/-- Value of eight little-endian bytes (`struct.unpack('<Q', ·)`). -/
def le8val (bs : List Nat) : Nat :=
  le4val (bs.take 4) + 4294967296 * le4val ((bs.drop 4).take 4)

/-! ### Bit strings

The Python code goes through arbitrary-precision integers:
`int(bits, 2).to_bytes(len(bits)//8, 'big')` on encode and
`bin(int.from_bytes(encoded, 'big'))[2:].zfill(len(encoded)*8)` on
decode.  Bits are `List Bool` with `true` standing for the character
`'1'`. -/

/-- `int(bits, 2)`: value of a big-endian bit string. -/
def bitsVal (bits : List Bool) : Nat :=
  bits.foldl (fun a b => 2 * a + (if b then 1 else 0)) 0

/-- `v.to_bytes(k, 'big')` (the source always has `v < 256^k`). -/
def natToBytesBE : Nat → Nat → List Nat
  | _, 0 => []
  | v, k + 1 => natToBytesBE (v / 256) k ++ [v % 256]

/-- `int.from_bytes(bs, 'big')`. -/
def bytesVal (bs : List Nat) : Nat := bs.foldl (fun a b => 256 * a + b) 0

/-- Binary digits of `v` with no leading zeros; fuel-driven (`v / 2`
strictly decreases while nonzero, so fuel `v` always suffices). -/
def minBinaryAux : Nat → Nat → List Bool
  | 0, _ => []
  | fuel + 1, v => if v = 0 then [] else minBinaryAux fuel (v / 2) ++ [v % 2 == 1]

/-- `bin(v)[2:]` as a bit list; `bin(0)[2:] = "0"`. -/
def minBinary (v : Nat) : List Bool :=
  if v = 0 then [false] else minBinaryAux v v

/-- `s.zfill(n)`: left-pad with zero bits up to length `n`. -/
def zfillBits (s : List Bool) (n : Nat) : List Bool :=
  if s.length < n then List.replicate (n - s.length) false ++ s else s

/-! ### CRC32 (`binascii.crc32`)

Standard reflected CRC-32 with polynomial `0xEDB88320`, the function
`binascii.crc32` computes.  `Nat.xor` of core is not kernel-friendly,
so exclusive-or is computed bit by bit with 32 bits of fuel; all values
involved are below `2^32`. -/

/-- Bitwise exclusive-or of the low `fuel` bits of `a` and `b`. -/
def xorBits : Nat → Nat → Nat → Nat
  | 0, _, _ => 0
  | k + 1, a, b =>
    (if (a % 2 + b % 2) % 2 = 1 then 1 else 0) + 2 * xorBits k (a / 2) (b / 2)

/-- Exclusive-or on 32-bit values. -/
def natXor32 (a b : Nat) : Nat := xorBits 32 a b

/-- One shift-and-conditionally-xor step of CRC-32. -/
def crcStep (c : Nat) : Nat :=
  if c % 2 = 1 then natXor32 (c / 2) 3988292384 else c / 2

/-- Eight CRC-32 steps (one input byte). -/
def crc8 (c : Nat) : Nat :=
  crcStep (crcStep (crcStep (crcStep (crcStep (crcStep (crcStep (crcStep c)))))))

/-- `binascii.crc32(data)` (already below `2^32`, so the source's
`& 0xffffffff` mask is the identity on it). -/
def crc32 (data : List Nat) : Nat :=
  natXor32 (data.foldl (fun c b => crc8 (natXor32 c b)) 4294967295) 4294967295

/-! ### Python dict / collections.Counter as ordered association lists -/

/-- One step of `Counter`: bump the count of `b`, keeping first-insertion
order as Python dicts do. -/
def counterAdd (acc : List (Nat × Nat)) (b : Nat) : List (Nat × Nat) :=
  if acc.any (fun p => p.1 == b) then
    acc.map (fun p => if p.1 == b then (p.1, p.2 + 1) else p)
  else acc ++ [(b, 1)]

/-- `collections.Counter(data)`: symbol frequencies in first-occurrence
order. -/
def counter (data : List Nat) : List (Nat × Nat) := data.foldl counterAdd []

/-- `d[k] = v` on a Python dict: update in place if present, else append. -/
def dictInsert (d : List (Nat × Nat)) (k v : Nat) : List (Nat × Nat) :=
  if d.any (fun p => p.1 == k) then
    d.map (fun p => if p.1 == k then (p.1, v) else p)
  else d ++ [(k, v)]

/-! ### Huffman tree (`class Node` / `class HNode`)

A Python child slot holds either `None` or a `Node`; the constructor
`nil` stands for `None`.  `symbol` is `Option Nat` exactly as in the
source (`None` for internal nodes). -/

/-- Huffman tree node; `nil` models a Python `None` child. -/
inductive HTree where
  | nil : HTree
  | node (freq : Nat) (symbol : Option Nat) (left right : HTree) : HTree
deriving DecidableEq

/-- `freq` attribute (never read on `nil` by the modelled code). -/
def HTree.freqOf : HTree → Nat
  | .nil => 0
  | .node f _ _ _ => f

/-- `symbol` attribute of a non-`None` node. -/
def HTree.symOf : HTree → Option Nat
  | .nil => none
  | .node _ s _ _ => s

/-- `left` attribute of a non-`None` node. -/
def HTree.leftOf : HTree → HTree
  | .nil => .nil
  | .node _ _ l _ => l

/-- `right` attribute of a non-`None` node. -/
def HTree.rightOf : HTree → HTree
  | .nil => .nil
  | .node _ _ _ r => r

/-- `Node.__lt__`: by frequency, ties broken by `(symbol or 0)` — note
that Python's `or` sends both `None` and the byte value `0` to `0`. -/
def nodeLt (a b : HTree) : Bool :=
  if a.freqOf = b.freqOf then (a.symOf.getD 0) < (b.symOf.getD 0)
  else a.freqOf < b.freqOf

/-! ### CPython `heapq` on `List HTree`

Faithful translations of `_siftdown`, `_siftup`, `heapify`, `heappush`
and `heappop` from CPython's `heapq.py`.  `List.set` and `List.getD`
model the in-place index assignment and read; out-of-range defaults are
never hit on the states the archiver produces (CPython would raise
there). -/

/-- Loop body of `_siftdown`: bubble `newitem`'s slot toward the root.
`pos` strictly decreases, so fuel `pos` suffices. -/
def siftdownLoop (startpos : Nat) (newitem : HTree) :
    Nat → Nat → List HTree → List HTree × Nat
  | 0, pos, heap => (heap, pos)
  | fuel + 1, pos, heap =>
    if startpos < pos then
      let parentpos := (pos - 1) / 2
      let parent := heap.getD parentpos .nil
      if nodeLt newitem parent then
        siftdownLoop startpos newitem fuel parentpos (heap.set pos parent)
      else (heap, pos)
    else (heap, pos)

/-- `heapq._siftdown(heap, startpos, pos)`. -/
def siftdown (heap : List HTree) (startpos pos : Nat) : List HTree :=
  let newitem := heap.getD pos .nil
  let hp := siftdownLoop startpos newitem pos pos heap
  hp.1.set hp.2 newitem

/-- Loop body of `_siftup`: move the smaller child up until a leaf slot
is reached.  `pos` at least doubles each round while below the length,
so fuel `heap.length` suffices. -/
def siftupLoop : Nat → Nat → List HTree → List HTree × Nat
  | 0, pos, heap => (heap, pos)
  | fuel + 1, pos, heap =>
    let endpos := heap.length
    let childpos := 2 * pos + 1
    if childpos < endpos then
      let rightpos := childpos + 1
      let childpos :=
        if rightpos < endpos &&
            !(nodeLt (heap.getD childpos .nil) (heap.getD rightpos .nil)) then
          rightpos
        else childpos
      siftupLoop fuel childpos (heap.set pos (heap.getD childpos .nil))
    else (heap, pos)

/-- `heapq._siftup(heap, pos)`. -/
def siftup (heap : List HTree) (pos : Nat) : List HTree :=
  let newitem := heap.getD pos .nil
  let hp := siftupLoop heap.length pos heap
  siftdown (hp.1.set hp.2 newitem) pos hp.2

/-- `heapq.heapify(x)`. -/
def heapify (heap : List HTree) : List HTree :=
  (List.range (heap.length / 2)).reverse.foldl (fun h i => siftup h i) heap

/-- `heapq.heappush(heap, item)`. -/
def heappush (heap : List HTree) (item : HTree) : List HTree :=
  siftdown (heap ++ [item]) 0 heap.length

/-- `heapq.heappop(heap)`; `none` models the `IndexError` that `pop`
raises on an empty list. -/
def heappop (heap : List HTree) : Option (HTree × List HTree) :=
  match heap.getLast? with
  | none => none
  | some lastelt =>
    let rest := heap.dropLast
    match rest with
    | [] => some (lastelt, [])
    | _ :: _ => some (rest.headD .nil, siftup (rest.set 0 lastelt) 0)

/-! ### `build_huffman_tree` (archiver_huffman.py, lines 68-81) -/

/-- The `while len(heap) > 1` merge loop followed by `return heap[0]`;
each round removes two nodes and adds one, so fuel `heap.length`
suffices, and `heap[0]` of an empty heap is an `IndexError`. -/
def htreeLoop : Nat → List HTree → Except PyErr HTree
  | 0, heap =>
    match heap with
    | [] => .error .indexError
    | h :: _ => .ok h
  | fuel + 1, heap =>
    if heap.length > 1 then
      match heappop heap with
      | none => .error .indexError
      | some (a, h1) =>
        match heappop h1 with
        | none => .error .indexError
        | some (b, h2) =>
          htreeLoop fuel (heappush h2 (.node (a.freqOf + b.freqOf) none a b))
    else
      match heap with
      | [] => .error .indexError
      | h :: _ => .ok h

/-- `build_huffman_tree(freqs)` of `archiver_huffman.py`: heapify the
leaves, special-case a single symbol (synthetic parent with a `None`
right child), else merge; an empty table reaches `heap[0]` on an empty
list (`IndexError`). -/
def build_huffman_tree (freqs : List (Nat × Nat)) : Except PyErr HTree :=
  let heap := heapify (freqs.map fun p => HTree.node p.2 (some p.1) .nil .nil)
  if heap.length = 1 then
    let only := heap.headD .nil
    .ok (.node only.freqOf none only .nil)
  else htreeLoop heap.length heap

/-! ### `build_codes` (archiver_huffman.py, lines 84-94) -/

/-- `build_codes(node, prefix)`: recursive code-table construction.
Reaching a `None` child reads `.symbol` on `None` (`AttributeError`) —
this is exactly what happens under the single-symbol synthetic root.
The shared dict is modelled as an append-ordered association list; its
keys (leaf symbols) are pairwise distinct for every table the code
builds, so first-match lookup agrees with the dict. -/
def build_codes : HTree → List Bool → Except PyErr (List (Nat × List Bool))
  | .nil, _ => .error .attributeError
  | .node _ symb l r, pre =>
    match symb with
    | some s => .ok [(s, if pre.isEmpty then [false] else pre)]
    | none => do
      let cl ← build_codes l (pre ++ [false])
      let cr ← build_codes r (pre ++ [true])
      .ok (cl ++ cr)

/-- `"".join(codebook[b] for b in data)`; a missing key is a `KeyError`. -/
def joinCodes (cb : List (Nat × List Bool)) : List Nat → Except PyErr (List Bool)
  | [] => .ok []
  | b :: rest =>
    match cb.find? (fun p => p.1 == b) with
    | none => .error .keyError
    | some p => do
      let r ← joinCodes cb rest
      .ok (p.2 ++ r)

/-! ### `huffman_encode` (archiver_huffman.py, lines 97-120) -/

/-- `huffman_encode(data)`: returns `(encoded, service)`.  The service
blob is `pack('<H', padding) + pack('<H', len(freqs))` followed by a
`pack('<BI', sym, freq)` record per symbol. -/
def huffman_encode (data : List Nat) :
    Except PyErr (List Nat × List Nat) := do
  let freqs := counter data
  let root ← build_huffman_tree freqs
  let codebook ← build_codes root []
  let bits ← joinCodes codebook data
  let padding := (8 - bits.length % 8) % 8
  let bits := bits ++ List.replicate padding false
  let encoded := natToBytesBE (bitsVal bits) (bits.length / 8)
  let service := le2 padding ++ le2 freqs.length ++
    (freqs.flatMap fun p => p.1 :: le4 p.2)
  .ok (encoded, service)

/-! ### `huffman_decode` (archiver_huffman.py, lines 123-155) -/

/-- `struct.unpack_from('<H', s, off)`. -/
def unpackH (s : List Nat) (off : Nat) : Except PyErr Nat :=
  if off + 2 ≤ s.length then .ok (s.getD off 0 + 256 * s.getD (off + 1) 0)
  else .error .structError

/-- `struct.unpack_from('<BI', s, off)`. -/
def unpackBI (s : List Nat) (off : Nat) : Except PyErr (Nat × Nat) :=
  if off + 5 ≤ s.length then
    .ok (s.getD off 0,
      s.getD (off + 1) 0 + 256 * s.getD (off + 2) 0 +
        65536 * s.getD (off + 3) 0 + 16777216 * s.getD (off + 4) 0)
  else .error .structError

/-- The `for _ in range(num_syms)` frequency-table parse loop; builds
the `freqs` dict with Python-dict update semantics. -/
def parseFreqTable (s : List Nat) :
    Nat → Nat → List (Nat × Nat) → Except PyErr (List (Nat × Nat))
  | 0, _, acc => .ok acc
  | k + 1, off, acc =>
    match unpackBI s off with
    | .error e => .error e
    | .ok sf => parseFreqTable s k (off + 5) (dictInsert acc sf.1 sf.2)

/-- The archiver's tree-walk decode loop: step to `left`/`right` on each
bit (`AttributeError` when the child is `None`), emit a byte at each
leaf, and `break` once exactly `orig_size` bytes are out. -/
def walkArch (root : HTree) :
    HTree → List Bool → Nat → List Nat → Except PyErr (List Nat)
  | _, [], _, out => .ok out
  | nd, bit :: rest, orig, out =>
    match (if bit then nd.rightOf else nd.leftOf) with
    | .nil => .error .attributeError
    | .node f symb l r =>
      match symb with
      | some s =>
        let out := out ++ [s]
        if out.length = orig then .ok out
        else walkArch root root rest orig out
      | none => walkArch root (.node f symb l r) rest orig out

/-- `huffman_decode(encoded, service, orig_size)` of
`archiver_huffman.py`: parse padding, symbol count and frequency table
from `service` (raising `struct.error` when it is too short), rebuild
the tree, strip the padding bits and walk. -/
def huffman_decode (encoded service : List Nat) (origSize : Nat) :
    Except PyErr (List Nat) :=
  match unpackH service 0 with
  | .error e => .error e
  | .ok padding =>
    match unpackH service 2 with
    | .error e => .error e
    | .ok numSyms =>
      match parseFreqTable service numSyms 4 [] with
      | .error e => .error e
      | .ok freqs =>
        match build_huffman_tree freqs with
        | .error e => .error e
        | .ok root =>
          let bitstr := zfillBits (minBinary (bytesVal encoded)) (8 * encoded.length)
          let bitstr := if padding ≠ 0 then bitstr.take (bitstr.length - padding) else bitstr
          walkArch root root bitstr origSize []

/-! ### `build_huffman_tree` / `huffman_decode_bytes`
(universal_decoder.py, lines 43-102)

The universal decoder has its own copy of the tree builder which, unlike
the archiver's, returns `None` for an empty table, and its own decode
routine `huffman_decode_bytes` with a `len(service) < 4` guard and a
`>= orig_size` stop condition followed by truncation. -/

/-- `build_huffman_tree(freqs)` of `universal_decoder.py`: identical to
the archiver's except that an empty table returns `None` (modelled
`.ok none`); errors cannot in fact occur on the remaining paths. -/
def build_huffman_treeU (freqs : List (Nat × Nat)) :
    Except PyErr (Option HTree) :=
  let heap := heapify (freqs.map fun p => HTree.node p.2 (some p.1) .nil .nil)
  if heap.length = 0 then .ok none
  else if heap.length = 1 then
    let only := heap.headD .nil
    .ok (some (.node only.freqOf none only .nil))
  else (htreeLoop heap.length heap).map some

/-- The universal decoder's tree-walk loop: like `walkArch` but the stop
test is `len(out) >= orig_size`. -/
def walkUniv (root : HTree) :
    HTree → List Bool → Nat → List Nat → Except PyErr (List Nat)
  | _, [], _, out => .ok out
  | nd, bit :: rest, orig, out =>
    match (if bit then nd.rightOf else nd.leftOf) with
    | .nil => .error .attributeError
    | .node f symb l r =>
      match symb with
      | some s =>
        let out := out ++ [s]
        if out.length ≥ orig then .ok out
        else walkUniv root root rest orig out
      | none => walkUniv root (.node f symb l r) rest orig out

/-- `huffman_decode_bytes(encoded_bytes, service_bytes, orig_size)` of
`universal_decoder.py`: a service blob shorter than 4 bytes returns
`b''` (no error!); an empty rebuilt tree returns `b''`; otherwise walk
and truncate the output to `orig_size`. -/
def huffman_decode_bytes (encoded service : List Nat) (origSize : Nat) :
    Except PyErr (List Nat) :=
  if service.length < 4 then .ok []
  else
    match unpackH service 0 with
    | .error e => .error e
    | .ok padding =>
      match unpackH service 2 with
      | .error e => .error e
      | .ok numSyms =>
        match parseFreqTable service numSyms 4 [] with
        | .error e => .error e
        | .ok freqs =>
          match build_huffman_treeU freqs with
          | .error e => .error e
          | .ok none => .ok []
          | .ok (some root) =>
            let bitstr := zfillBits (minBinary (bytesVal encoded)) (8 * encoded.length)
            let bitstr := if padding ≠ 0 then bitstr.take (bitstr.length - padding) else bitstr
            match walkUniv root root bitstr origSize [] with
            | .error e => .error e
            | .ok out => .ok (out.take origSize)

/-! ### Archive byte-stream reading

All four archive readers (`extract_archive` and `decode_v1/v2/v3`)
parse the identical fixed header and TOC layout with the same sequence
of `f.read`/`struct.unpack` calls; the shared parser below is the
common translation of that duplicated code.  The open file is the
remaining-byte suffix. -/

/-- `f.read(1)[0]`: `IndexError` at EOF. -/
def readByte : List Nat → Except PyErr (Nat × List Nat)
  | [] => .error .indexError
  | b :: rest => .ok (b, rest)

/-- `struct.unpack('<H', f.read(2))`: `struct.error` on a short read. -/
def readU16 (bs : List Nat) : Except PyErr (Nat × List Nat) :=
  if 2 ≤ bs.length then .ok (le2val (bs.take 2), bs.drop 2)
  else .error .structError

/-- `struct.unpack('<I', f.read(4))`. -/
def readU32 (bs : List Nat) : Except PyErr (Nat × List Nat) :=
  if 4 ≤ bs.length then .ok (le4val (bs.take 4), bs.drop 4)
  else .error .structError

/-- `struct.unpack('<Q', f.read(8))`. -/
def readU64 (bs : List Nat) : Except PyErr (Nat × List Nat) :=
  if 8 ≤ bs.length then .ok (le8val (bs.take 8), bs.drop 8)
  else .error .structError

/-- The 6-byte mandatory signature `b'L3ARCH'`. -/
def sigBytes6 : List Nat := [76, 51, 65, 82, 67, 72]

/-- The full 8-byte signature `b'L3ARCH04'` the lab-4 writers emit. -/
def signature04 : List Nat := [76, 51, 65, 82, 67, 72, 48, 52]

/-- Fixed header fields shared by v1/v2/v3 archives. -/
structure Header where
  version : Nat
  algCtx : Nat
  algNoctx : Nat
  algProt : Nat
  headerSize : Nat
  numEntries : Nat
deriving DecidableEq

/-- One parsed TOC record.  `relpath` is kept as its raw bytes; the
source's UTF-8 `decode` is modelled as the identity on byte content. -/
structure TocEntry where
  etype : Nat
  relpath : List Nat
  origSize : Nat
  storedSize : Nat
  service : List Nat
deriving DecidableEq

/-- The common fixed-header parse of `extract_archive` and
`decode_v1/v2/v3`: signature prefix check (`ValueError`), version,
three algorithm bytes, a reserved `f.read(1)` that is discarded without
subscripting (hence no error even at EOF), `header_size`, entry count. -/
def parseHeader (bs : List Nat) : Except PyErr (Header × List Nat) := do
  let sig := bs.take 8
  if sig.take 6 = sigBytes6 then do
    let bs := bs.drop 8
    let (ver, bs) ← readU16 bs
    let (actx, bs) ← readByte bs
    let (anoctx, bs) ← readByte bs
    let (aprot, bs) ← readByte bs
    let bs := bs.drop 1
    let (hsize, bs) ← readU64 bs
    let (num, bs) ← readU32 bs
    .ok (⟨ver, actx, anoctx, aprot, hsize, num⟩, bs)
  else .error .valueError

/-- The common `for _ in range(num_entries)` TOC-parsing loop.  The
path and service reads are plain `f.read(n)` with no length check, so a
truncated file silently yields short fields there, exactly as in
Python. -/
def parseToc : Nat → List Nat → Except PyErr (List TocEntry × List Nat)
  | 0, bs => .ok ([], bs)
  | n + 1, bs => do
    let (t, bs) ← readByte bs
    let (plen, bs) ← readU16 bs
    let path := bs.take plen
    let bs := bs.drop plen
    let (orig, bs) ← readU64 bs
    let (stored, bs) ← readU64 bs
    let (slen, bs) ← readU32 bs
    let service := bs.take slen
    let bs := bs.drop slen
    let (rest, bs') ← parseToc n bs
    .ok (⟨t, path, orig, stored, service⟩ :: rest, bs')

/-- Observable per-entry diagnostics: the `CRC mismatch` messages the
decoders print while still materializing the entry. -/
inductive Report where
  | crcMismatch (relpath : List Nat)
deriving DecidableEq

/-- Outcome of one decoder run: files written (path bytes, content) in
order, diagnostics printed, and the fatal exception, if one aborted the
run after the writes already made. -/
structure RunResult where
  written : List (List Nat × List Nat)
  reports : List Report
  err : Option PyErr
deriving DecidableEq

/-- The common per-entry extraction loop: slice this entry's stored
block off the payload cursor, process it, keep earlier writes when a
fatal exception stops the loop.  `f` returns the bytes to write (or
`none` when the entry is skipped) plus its diagnostics. -/
def runEntries (f : TocEntry → List Nat → Except PyErr (Option (List Nat) × List Report)) :
    List TocEntry → List Nat → RunResult
  | [], _ => ⟨[], [], none⟩
  | e :: rest, buf =>
    let stored := buf.take e.storedSize
    match f e stored with
    | .error pe => ⟨[], [], some pe⟩
    | .ok (w, reps) =>
      let r := runEntries f rest (buf.drop e.storedSize)
      ⟨(match w with | some raw => [(e.relpath, raw)] | none => []) ++ r.written,
        reps ++ r.reports, r.err⟩

/-! ### `decode_v0` (universal_decoder.py, lines 108-135) -/

/-- The fixed output name `restored_v0.bin` used by `decode_v0`. -/
def v0Name : List Nat :=
  [114, 101, 115, 116, 111, 114, 101, 100, 95, 118, 48, 46, 98, 105, 110]

/-- `decode_v0`: skip the already-checked 8 bytes, read a `u64` length
and that many raw bytes, `ValueError` when fewer are available. -/
def decode_v0 (bs : List Nat) : RunResult :=
  let rest := bs.drop 8
  match readU64 rest with
  | .error pe => ⟨[], [], some pe⟩
  | .ok (origLen, rest) =>
    let data := rest.take origLen
    if data.length = origLen then ⟨[(v0Name, data)], [], none⟩
    else ⟨[], [], some .valueError⟩

/-! ### `decode_v1` (universal_decoder.py, lines 141-205) -/

/-- One `decode_v1` entry: expected CRC from the *first* four service
bytes when protection is 11, `zlib.decompress` (the external `zlibD`)
for codec 2, raw bytes otherwise; a mismatch is printed and the entry
is written regardless.  Entry type is never inspected. -/
def v1Entry (zlibD : List Nat → Except PyErr (List Nat)) (prot noctx : Nat)
    (e : TocEntry) (stored : List Nat) :
    Except PyErr (Option (List Nat) × List Report) :=
  let expected := if prot = 11 ∧ 4 ≤ e.service.length
    then some (le4val (e.service.take 4)) else none
  match (if noctx = 2 then zlibD stored else .ok stored) with
  | .error e => .error e
  | .ok raw =>
    let reps := match expected with
      | some c => if crc32 raw ≠ c then [Report.crcMismatch e.relpath] else []
      | none => []
    .ok (some raw, reps)

/-- `decode_v1(archive)`. -/
def decode_v1 (zlibD : List Nat → Except PyErr (List Nat)) (bs : List Nat) :
    RunResult :=
  match (do
      let (hdr, rest) ← parseHeader bs
      let (toc, rest) ← parseToc hdr.numEntries rest
      Except.ok (hdr, toc, rest)) with
  | .error pe => ⟨[], [], some pe⟩
  | .ok (hdr, toc, rest) =>
    runEntries (v1Entry zlibD hdr.algProt hdr.algNoctx) toc rest

/-! ### `decode_v2` (universal_decoder.py, lines 211-261) -/

/-- One `decode_v2` entry: for codec 3 the CRC (when protection is 11
and the service blob has at least 4 bytes) is the *last* four service
bytes, stripped before `huffman_decode_bytes`; codec 2 goes through
zlib with no CRC look at all; anything else is stored raw, also without
any CRC check.  Entry type is never inspected. -/
def v2Entry (zlibD : List Nat → Except PyErr (List Nat)) (prot noctx : Nat)
    (e : TocEntry) (stored : List Nat) :
    Except PyErr (Option (List Nat) × List Report) :=
  if noctx = 3 then
    let crcVal := if prot = 11 ∧ 4 ≤ e.service.length
      then some (le4val (e.service.drop (e.service.length - 4))) else none
    let service := if prot = 11 ∧ 4 ≤ e.service.length
      then e.service.take (e.service.length - 4) else e.service
    match huffman_decode_bytes stored service e.origSize with
    | .error pe => .error pe
    | .ok raw =>
      let reps := match crcVal with
        | some c => if crc32 raw ≠ c then [Report.crcMismatch e.relpath] else []
        | none => []
      .ok (some raw, reps)
  else if noctx = 2 then
    match zlibD stored with
    | .error pe => .error pe
    | .ok raw => .ok (some raw, [])
  else .ok (some stored, [])

/-- `decode_v2(archive)`. -/
def decode_v2 (zlibD : List Nat → Except PyErr (List Nat)) (bs : List Nat) :
    RunResult :=
  match (do
      let (hdr, rest) ← parseHeader bs
      let (toc, rest) ← parseToc hdr.numEntries rest
      Except.ok (hdr, toc, rest)) with
  | .error pe => ⟨[], [], some pe⟩
  | .ok (hdr, toc, rest) =>
    runEntries (v2Entry zlibD hdr.algProt hdr.algNoctx) toc rest

/-! ### `decode_v3` (universal_decoder.py, lines 267-330) -/

/-- One `decode_v3` entry (files only; other kinds are skipped but
their stored bytes are still consumed by the caller).  The codec is
`service[0]` (0 when the blob is empty) and the metadata `service[1:]`.
Codec 0 stores raw; codec 3 invokes `huffman_decode`, **a name that is
not defined anywhere in `universal_decoder.py`** (the module defines
`huffman_decode_bytes` and imports nothing else), so Python raises
`NameError` before anything is written; other codecs raise
`ValueError`.  Afterwards protection 11 with at least 4 metadata bytes
compares the trailing four bytes with the CRC and prints on mismatch,
then writes. -/
def v3Entry (prot : Nat) (e : TocEntry) (stored : List Nat) :
    Except PyErr (Option (List Nat) × List Report) :=
  if e.etype = 1 then
    let acode := e.service.headD 0
    let meta := e.service.drop 1
    match (if acode = 0 then Except.ok stored
        else if acode = 3 then Except.error PyErr.nameError
        else Except.error PyErr.valueError) with
    | .error pe => .error pe
    | .ok raw =>
      let reps := if prot = 11 ∧ 4 ≤ meta.length ∧
          crc32 raw ≠ le4val (meta.drop (meta.length - 4))
        then [Report.crcMismatch e.relpath] else []
      .ok (some raw, reps)
  else .ok (none, [])

/-- `decode_v3(archive)`. -/
def decode_v3 (bs : List Nat) : RunResult :=
  match (do
      let (hdr, rest) ← parseHeader bs
      let (toc, rest) ← parseToc hdr.numEntries rest
      Except.ok (hdr, toc, rest)) with
  | .error pe => ⟨[], [], some pe⟩
  | .ok (hdr, toc, rest) =>
    runEntries (v3Entry hdr.algProt) toc rest

/-! ### `extract_archive` (archiver_huffman.py, lines 255-306) -/

/-- One `extract_archive` entry (files only).  When the archive-global
codec is Huffman: with protection 11 and a service blob *longer than 6*
bytes the last four bytes are split off as the CRC and the remainder
fed to the archiver's (error-raising) `huffman_decode`; a mismatch is
printed, the entry written regardless.  Any other codec — including
zlib's tag 2 — writes the stored bytes untouched with no CRC look. -/
def extractEntry (prot noctx : Nat) (e : TocEntry) (stored : List Nat) :
    Except PyErr (Option (List Nat) × List Report) :=
  if e.etype = 1 then
    if noctx = 3 then
      let crcVal := if prot = 11 ∧ 6 < e.service.length
        then some (le4val (e.service.drop (e.service.length - 4))) else none
      let service := if prot = 11 ∧ 6 < e.service.length
        then e.service.take (e.service.length - 4) else e.service
      match huffman_decode stored service e.origSize with
      | .error pe => .error pe
      | .ok raw =>
        let reps := match crcVal with
          | some c => if crc32 raw ≠ c then [Report.crcMismatch e.relpath] else []
          | none => []
        .ok (some raw, reps)
    else .ok (some stored, [])
  else .ok (none, [])

/-- `extract_archive(archive_path, out_dir)`. -/
def extract_archive (bs : List Nat) : RunResult :=
  match (do
      let (hdr, rest) ← parseHeader bs
      let (toc, rest) ← parseToc hdr.numEntries rest
      Except.ok (hdr, toc, rest)) with
  | .error pe => ⟨[], [], some pe⟩
  | .ok (hdr, toc, rest) =>
    runEntries (extractEntry hdr.algProt hdr.algNoctx) toc rest

/-! ### `universal_decode` (universal_decoder.py, lines 336-356) -/

/-- `universal_decode(archive_path, outdir)`: read 8 head bytes, check
the 6-byte signature (`ValueError`), take the version from bytes 6-7
(`struct.error` when the file is shorter than 8 bytes), then dispatch
on it; any version other than 0-3 raises `RuntimeError` with nothing
written. -/
def universal_decode (zlibD : List Nat → Except PyErr (List Nat))
    (bs : List Nat) : RunResult :=
  let head := bs.take 8
  if head.take 6 = sigBytes6 then
    if (head.drop 6).length = 2 then
      let version := le2val (head.drop 6)
      if version = 0 then decode_v0 bs
      else if version = 1 then decode_v1 zlibD bs
      else if version = 2 then decode_v2 zlibD bs
      else if version = 3 then decode_v3 bs
      else ⟨[], [], some .runtimeError⟩
    else ⟨[], [], some .structError⟩
  else ⟨[], [], some .valueError⟩

/-! ### `intelligent_encode_file` (intelligent_coder.py, lines 17-73) -/

/-- `intelligent_encode_file(data, force_algorithm, enable_crc)`,
returning `(algorithm_code, encoded_data, meta_info, final_size)`.
Adaptive mode always Huffman-encodes first for the size comparison and
therefore inherits the encoder's exceptions; `force_algorithm` values
other than `0`/`3` fall off the end of the function, whose `None`
return the caller immediately unpacks (`TypeError`).  Note the source's
`final_size` counts the CRC twice in the adaptive Huffman branch. -/
def intelligent_encode_file (data : List Nat) (force : Option Nat)
    (enableCrc : Bool) :
    Except PyErr (Nat × List Nat × List Nat × Nat) :=
  match force with
  | some 0 => .ok (0, data, [], data.length)
  | some 3 =>
    match huffman_encode data with
    | .error e => .error e
    | .ok (enc, meta) =>
      if enableCrc then
        .ok (3, enc, meta ++ le4 (crc32 data), enc.length + meta.length + 4)
      else
        .ok (3, enc, meta, enc.length + meta.length)
  | some _ => .error .typeError
  | none =>
    match huffman_encode data with
    | .error e => .error e
    | .ok (enc, meta) =>
      let total := enc.length + meta.length + (if enableCrc then 4 else 0)
      if total ≥ data.length then .ok (0, data, [], data.length)
      else if enableCrc then
        .ok (3, enc, meta ++ le4 (crc32 data), total + 4)
      else .ok (3, enc, meta, total)

/-! ### `save_archive_v3` (intelligent_coder.py, lines 126-175) -/

/-- An in-memory entry record as `create_intelligent_archive` hands it
to `save_archive_v3`. -/
structure V3Entry where
  etype : Nat
  relpath : List Nat
  origSize : Nat
  storedSize : Nat
  service : List Nat
  acode : Nat
deriving DecidableEq

/-- The TOC bytes `save_archive_v3` assembles: the per-entry service
blob is the algorithm code byte followed by the entry's metadata. -/
def v3Table (entries : List V3Entry) : List Nat :=
  entries.flatMap fun e =>
    let sb := e.acode :: e.service
    [e.etype] ++ le2 e.relpath.length ++ e.relpath ++ le8 e.origSize ++
      le8 e.storedSize ++ le4 sb.length ++ sb

/-- `save_archive_v3(output_path, entries, data_blocks, enable_crc)`:
signature `L3ARCH04`, version 3, `alg_noctx` written as 0, protection
11 when CRC is enabled, `header_size` = 26 fixed bytes + TOC. -/
def save_archive_v3 (entries : List V3Entry) (blocks : List (List Nat))
    (enableCrc : Bool) : List Nat :=
  signature04 ++ le2 3 ++ [0, 0, if enableCrc then 11 else 0, 0] ++
    le8 (26 + (v3Table entries).length) ++ le4 entries.length ++
    v3Table entries ++ blocks.flatten

/-! ### Output path materialization

Every decoder materializes an entry at `outdir / Path(relpath)` with no
containment check.  `pathlib` keeps `..` components (it only drops
empty and `.` parts), and the operating system then resolves them
upward, so the functions below give the components of the joined path
and their lexical resolution. -/

/-- Split a raw path on `/` (byte 47) into components, dropping empty
ones and `.` as `pathlib.Path` does; `..` (bytes `[46, 46]`) is kept. -/
def pathComponents (p : List Nat) : List (List Nat) :=
  (p.splitOn 47).filter fun c => c ≠ [] ∧ c ≠ [46]

/-- Components of `outdir / Path(relpath)`: an absolute `relpath`
(leading `/`) replaces `outdir` entirely, otherwise the parts are
concatenated — `pathlib` performs no `..` normalization. -/
def joinedPath (outdir : List (List Nat)) (relpath : List Nat) :
    List (List Nat) :=
  if relpath.headD 0 = 47 then pathComponents relpath
  else outdir ++ pathComponents relpath

/-- Lexical resolution of `..` components, as the operating system
resolves the written path (no symlinks involved). -/
def resolveDots (cs : List (List Nat)) : List (List Nat) :=
  cs.foldl (fun acc c => if c = [46, 46] then acc.dropLast else acc ++ [c]) []

/-- The materialized file stays inside the output root: the resolved
root is a prefix of the resolved joined path. -/
def insideRoot (outdir : List (List Nat)) (relpath : List Nat) : Bool :=
  (resolveDots outdir).isPrefixOf (resolveDots (joinedPath outdir relpath))

/-- Stand-in instantiation for the external `zlib.decompress` in closed
evaluations (no claim depends on its value). -/
def zlibStub : List Nat → Except PyErr (List Nat) := fun _ => .ok []

/-! ### Concrete artifacts used by the claim evaluations -/

/-- The path bytes `../evil`. -/
def evilPathB : List Nat := [46, 46, 47, 101, 118, 105, 108]

/-- Components of an output root directory named `out`. -/
def outRootB : List (List Nat) := [[111, 117, 116]]

/-- TOC of a one-entry archive whose entry path is `../evil` (file kind,
one stored byte, empty service blob). -/
def evilToc : List Nat := [1] ++ le2 7 ++ evilPathB ++ le8 1 ++ le8 1 ++ le4 0

/-- A well-formed v2-layout store archive (codec 0, no protection) whose
single entry is named `../evil` and stores the byte `88`. -/
def evilArchive : List Nat :=
  signature04 ++ le2 2 ++ [0, 0, 0, 0] ++ le8 (26 + evilToc.length) ++
    le4 1 ++ evilToc ++ [88]

/-- The service metadata `huffman_encode` produces for the two-byte
input `[0, 1]`: padding 6, two symbols, each with count 1. -/
def hMeta : List Nat := [6, 0, 2, 0, 0, 1, 0, 0, 0, 1, 1, 0, 0, 0]

/-- `save_archive_v3` output for one Huffman entry (codec byte 3): the
payload `[64]` and table `hMeta` are `huffman_encode [0, 1]`. -/
def c3huff : List Nat := save_archive_v3 [⟨1, [102], 2, 1, hMeta, 3⟩] [[64]] false

/-- `save_archive_v3` output for one stored entry (codec byte 0) named
`g` with content `[7, 8, 9]`. -/
def c3store : List Nat := save_archive_v3 [⟨1, [103], 3, 3, [], 0⟩] [[7, 8, 9]] false

/-- `save_archive_v3` output for one stored entry named `h` with the
single content byte `55`; its u16 version field (offset 8) is 3. -/
def c2arc : List Nat := save_archive_v3 [⟨1, [104], 1, 1, [], 0⟩] [[55]] false

/-- A file carrying the raw bytes `[2, 0]` at offsets 6-7 (where
`universal_decode` looks for the version) while its u16 field after the
8-byte signature position — the version field of the section-6 layout —
holds 99; body is a valid store TOC with one entry `q` storing `77`. -/
def craft2 : List Nat :=
  sigBytes6 ++ [2, 0] ++ le2 99 ++ [0, 0, 0, 0] ++
    le8 (26 + ([1] ++ le2 1 ++ [113] ++ le8 1 ++ le8 1 ++ le4 0).length) ++
    le4 1 ++ ([1] ++ le2 1 ++ [113] ++ le8 1 ++ le8 1 ++ le4 0) ++ [77]

/-- A protected (tag 11) Huffman (codec 3) service blob: padding 7, one
symbol `65` with count 1, followed by a stored CRC of 0 — which is not
the CRC-32 of the decoded byte `65`. -/
def c9svc : List Nat := [7, 0, 1, 0, 65, 1, 0, 0, 0] ++ [0, 0, 0, 0]

/-- The TOC entry carrying `c9svc` for a one-byte file `p`. -/
def c9entry : TocEntry := ⟨1, [112], 1, 1, c9svc⟩

/-- A seven-byte multi-symbol input for round-trip evidence. -/
def rtData : List Nat := [5, 1, 5, 2, 5, 5, 1]

/-- `huffman_encode rtData`'s payload (the encoder succeeds here). -/
def rtBlock : List Nat :=
  match huffman_encode rtData with
  | .ok p => p.1
  | .error _ => []

/-- `huffman_encode rtData`'s service metadata, with the CRC-32 of the
original bytes appended as `build_archive` does under protection. -/
def rtService : List Nat :=
  (match huffman_encode rtData with
    | .ok p => p.2
    | .error _ => []) ++ le4 (crc32 rtData)

/-- TOC of the protected archive holding `rtData` as file `f`. -/
def rtToc : List Nat :=
  [1] ++ le2 1 ++ [102] ++ le8 7 ++ le8 rtBlock.length ++
    le4 rtService.length ++ rtService

/-- A protected (tag 11) v2-layout Huffman archive holding
`huffman_encode rtData` with its correct stored checksum. -/
def rtArchive : List Nat :=
  signature04 ++ le2 2 ++ [0, 3, 11, 0] ++ le8 (26 + rtToc.length) ++
    le4 1 ++ rtToc ++ rtBlock

/-! ### Claim theorems -/

/-- C1: the claimed Huffman round trip fails at the single-repeated-byte
input the claim itself names: `huffman_encode(b"AAAA")` raises
`AttributeError` — `build_huffman_tree` roots the one-symbol alphabet
under a synthetic parent whose right child is `None`, and `build_codes`
recurses into that child and reads `.symbol` on `None` — so there is no
encoded form to decode (empty input likewise crashes, with
`IndexError`). -/
theorem huffman_roundtrip_single_symbol_crash :
    huffman_encode (List.replicate 4 65) = .error .attributeError := by decide

/-- C2: `universal_decode` does not dispatch on the u16 version field
the writers emit after the 8-byte signature field; it unpacks bytes 6-7
— the ASCII `04` tail of the signature `L3ARCH04` — as the version.  A
`save_archive_v3` archive whose version field is 3 is rejected as
unknown version 13360 (`RuntimeError`, nothing written) even though
`decode_v3` extracts it fine, and a file with raw bytes `[2, 0]` at
offsets 6-7 but version field 99 is dispatched to `decode_v2` and has
its output written. -/
theorem universal_decode_version_misdispatch :
    (c2arc.take 8 = signature04 ∧ le2val ((c2arc.drop 8).take 2) = 3 ∧
      le2val ((c2arc.take 8).drop 6) = 13360) ∧
    universal_decode zlibStub c2arc = ⟨[], [], some .runtimeError⟩ ∧
    decode_v3 c2arc = ⟨[([104], [55])], [], none⟩ ∧
    (le2val ((craft2.drop 8).take 2) = 99 ∧
      universal_decode zlibStub craft2 = ⟨[([113], [77])], [], none⟩) := by decide

/-- C3: a v3 file entry whose service blob starts with the Huffman codec
byte 3 is never reconstructed: `decode_v3` calls `huffman_decode`, a
name that does not exist in `universal_decoder.py`, so Python raises
`NameError` and nothing is written — here on an archive produced by the
repository's own `save_archive_v3` from `huffman_encode [0, 1]`.  The
store half of the claim does hold: a first service byte of 0 writes the
stored bytes unchanged. -/
theorem decode_v3_huffman_entry_name_error :
    decode_v3 c3huff = ⟨[], [], some .nameError⟩ ∧
    decode_v3 c3store = ⟨[([103], [7, 8, 9])], [], none⟩ := by decide

/-- C4: `huffman_encode` applied to the empty byte sequence crashes
instead of returning an empty payload with zero symbols: the frequency
table is empty, so `build_huffman_tree`'s final `return heap[0]`
subscripts an empty list (`IndexError`). -/
theorem huffman_encode_empty_crash :
    huffman_encode [] = .error .indexError := by decide

/-- C6: the entropy-bound claim quantifies over every input, but on the
three-byte input `b"BBB"` (length 3, empirical entropy 0, so the claim
asserts a bit count within `[0, 3]`) `huffman_encode` produces no bit
count at all — it raises `AttributeError` in `build_codes` via the
single-symbol root's `None` child. -/
theorem huffman_entropy_bound_crash_input :
    huffman_encode (List.replicate 3 66) = .error .attributeError := by decide

/-- C7: no decoder rejects entry paths that escape the output root.  On
a store archive whose entry is named `../evil`, `decode_v2`,
`decode_v1` and `extract_archive` all materialize the entry; joined
under the output root `out` the written path resolves to `evil`,
outside the root. -/
theorem decoders_write_outside_output_root :
    decode_v2 zlibStub evilArchive = ⟨[(evilPathB, [88])], [], none⟩ ∧
    decode_v1 zlibStub evilArchive = ⟨[(evilPathB, [88])], [], none⟩ ∧
    extract_archive evilArchive = ⟨[(evilPathB, [88])], [], none⟩ ∧
    insideRoot outRootB evilPathB = false ∧
    resolveDots (joinedPath outRootB evilPathB) = [[101, 118, 105, 108]] := by decide

/-- C5 (counterexample to the claim as stated): in adaptive mode the
selector Huffman-encodes first even when store must win, so on the
uniform input `b"AAAA"` it crashes with the encoder's `AttributeError`
instead of returning the store choice. -/
theorem intelligent_selector_crashes_on_uniform_input :
    intelligent_encode_file (List.replicate 4 65) none false = .error .attributeError := by
  decide

/-- C5 (amended): on every input where `huffman_encode` succeeds (it
raises on empty and single-symbol inputs), the adaptive selector
returns Huffman (codec 3) exactly when payload + metadata (+ 4 CRC
bytes when protection is on) is strictly below the raw length, and
otherwise store (codec 0) with the raw bytes and empty metadata. -/
theorem intelligent_selector_sound_when_encoder_succeeds
    (data enc meta : List Nat) (cf : Bool)
    (henc : huffman_encode data = .ok (enc, meta)) :
    (enc.length + meta.length + (if cf then 4 else 0) < data.length →
      intelligent_encode_file data none cf =
        .ok (3, enc, meta ++ (if cf then le4 (crc32 data) else []),
          enc.length + meta.length + (if cf then 4 else 0) + (if cf then 4 else 0))) ∧
    (data.length ≤ enc.length + meta.length + (if cf then 4 else 0) →
      intelligent_encode_file data none cf = .ok (0, data, [], data.length)) := by
  simp only [intelligent_encode_file, henc]
  constructor
  · intro hlt
    rw [if_neg (by omega)]
    cases cf <;> simp
  · intro hge
    rw [if_pos (by omega)]

/-- C5 (witness): on `[0, 1]` the Huffman total (1 payload + 14
metadata bytes) is not below the raw length 2, so store is chosen. -/
theorem intelligent_selector_witness :
    intelligent_encode_file [0, 1] none false = .ok (0, [0, 1], [], 2) := by
  have h := intelligent_selector_sound_when_encoder_succeeds [0, 1] [64] hMeta false (by decide)
  exact h.2 (by decide)

/-- Helper for C8: the frequency-table parse loop raises `struct.error`
whenever the declared number of 5-byte records extends past the service
blob. -/
lemma parseFreqTable_short (s : List Nat) :
    ∀ (k off : Nat) (acc : List (Nat × Nat)), 1 ≤ k → s.length < off + 5 * k →
      parseFreqTable s k off acc = .error .structError := by
  intro k
  induction k with
  | zero => intro off acc h1 _; omega
  | succ k ih =>
    intro off acc _ hlen
    by_cases h5 : off + 5 ≤ s.length
    · have hk : 1 ≤ k := by omega
      simp only [parseFreqTable, unpackBI, if_pos h5]
      exact ih (off + 5) _ hk (by omega)
    · simp only [parseFreqTable, unpackBI, if_neg h5]

/-- C8 (counterexample to the claim as stated): a truncated service
blob shorter than 4 bytes makes `huffman_decode_bytes` silently return
the empty byte string — no format error reaches the caller. -/
theorem huffman_decode_bytes_silent_on_short_service :
    huffman_decode_bytes [1, 2, 3] [] 5 = .ok [] := by decide

/-- C8 (amended): when the declared symbol table extends past the
service blob, both decoders fail with `struct.error`, and the
archiver's `huffman_decode` also fails on blobs shorter than its
4-byte padding/symbol-count header; but the universal decoder's
`huffman_decode_bytes` silently returns `b''` for blobs shorter than
4 bytes instead of reporting a format error. -/
theorem huffman_decode_truncated_service :
    (∀ (encoded s : List Nat) (n : Nat), s.length < 4 →
      huffman_decode_bytes encoded s n = .ok []) ∧
    (∀ (encoded s : List Nat) (n : Nat), 4 ≤ s.length →
      s.length < 4 + 5 * (s.getD 2 0 + 256 * s.getD 3 0) →
      huffman_decode_bytes encoded s n = .error .structError) ∧
    (∀ (encoded s : List Nat) (n : Nat), s.length < 4 →
      huffman_decode encoded s n = .error .structError) ∧
    (∀ (encoded s : List Nat) (n : Nat), 4 ≤ s.length →
      s.length < 4 + 5 * (s.getD 2 0 + 256 * s.getD 3 0) →
      huffman_decode encoded s n = .error .structError) := by
  refine ⟨?_, ?_, ?_, ?_⟩
  · intro encoded s n hlen
    simp only [huffman_decode_bytes, if_pos hlen]
  · intro encoded s n h4 hlen
    have hk : 1 ≤ s.getD 2 0 + 256 * s.getD 3 0 := by omega
    simp only [huffman_decode_bytes, if_neg (by omega : ¬ s.length < 4),
      unpackH, if_pos (by omega : 0 + 2 ≤ s.length), if_pos (by omega : 2 + 2 ≤ s.length),
      parseFreqTable_short s _ 4 [] hk (by omega)]
  · intro encoded s n hlen
    by_cases h2 : 0 + 2 ≤ s.length
    · simp only [huffman_decode, unpackH, if_pos h2, if_neg (by omega : ¬ 2 + 2 ≤ s.length)]
    · simp only [huffman_decode, unpackH, if_neg h2]
  · intro encoded s n h4 hlen
    have hk : 1 ≤ s.getD 2 0 + 256 * s.getD 3 0 := by omega
    simp only [huffman_decode, unpackH, if_pos (by omega : 0 + 2 ≤ s.length),
      if_pos (by omega : 2 + 2 ≤ s.length),
      parseFreqTable_short s _ 4 [] hk (by omega)]

/-- C8 (witness): concrete instances of all four cases — a 0-byte and a
9-byte blob declaring two records (needing 14 bytes). -/
theorem huffman_decode_truncated_service_witness :
    huffman_decode_bytes [9] [1, 2, 3] 5 = .ok [] ∧
    huffman_decode_bytes [9] [0, 0, 2, 0, 0, 1, 0, 0, 0] 5 = .error .structError ∧
    huffman_decode [9] [1] 5 = .error .structError ∧
    huffman_decode [9] [0, 0, 2, 0, 0, 1, 0, 0, 0] 5 = .error .structError := by
  have h := huffman_decode_truncated_service
  exact ⟨h.1 [9] [1, 2, 3] 5 (by decide), h.2.1 [9] _ 5 (by decide) (by decide),
    h.2.2.1 [9] [1] 5 (by decide), h.2.2.2 [9] _ 5 (by decide) (by decide)⟩

/-- C9: a protected Huffman entry whose stored checksum differs from
the CRC-32 of the decoded bytes is reported *and still written*, and
the remaining entries are processed exactly as they would be otherwise
— in both `decode_v2`'s loop and `extract_archive`'s loop. -/
theorem crc_mismatch_nonfatal
    (zlibD : List Nat → Except PyErr (List Nat))
    (e : TocEntry) (rest : List TocEntry) (buf raw : List Nat)
    (h4 : 4 ≤ e.service.length)
    (hdec : huffman_decode_bytes (buf.take e.storedSize)
      (e.service.take (e.service.length - 4)) e.origSize = .ok raw)
    (hmis : crc32 raw ≠ le4val (e.service.drop (e.service.length - 4)))
    (e' : TocEntry) (rest' : List TocEntry) (buf' raw' : List Nat)
    (htype : e'.etype = 1) (h6 : 6 < e'.service.length)
    (hdec' : huffman_decode (buf'.take e'.storedSize)
      (e'.service.take (e'.service.length - 4)) e'.origSize = .ok raw')
    (hmis' : crc32 raw' ≠ le4val (e'.service.drop (e'.service.length - 4))) :
    runEntries (v2Entry zlibD 11 3) (e :: rest) buf =
      ⟨(e.relpath, raw) ::
          (runEntries (v2Entry zlibD 11 3) rest (buf.drop e.storedSize)).written,
        Report.crcMismatch e.relpath ::
          (runEntries (v2Entry zlibD 11 3) rest (buf.drop e.storedSize)).reports,
        (runEntries (v2Entry zlibD 11 3) rest (buf.drop e.storedSize)).err⟩ ∧
    runEntries (extractEntry 11 3) (e' :: rest') buf' =
      ⟨(e'.relpath, raw') ::
          (runEntries (extractEntry 11 3) rest' (buf'.drop e'.storedSize)).written,
        Report.crcMismatch e'.relpath ::
          (runEntries (extractEntry 11 3) rest' (buf'.drop e'.storedSize)).reports,
        (runEntries (extractEntry 11 3) rest' (buf'.drop e'.storedSize)).err⟩ := by
  constructor
  · simp [runEntries, v2Entry, h4, hdec, hmis]
  · simp [runEntries, extractEntry, htype, h6, hdec', hmis']

/-- C9 (witness): a one-symbol protected entry whose stored CRC is 0
(not the CRC-32 of `A`) is written with a mismatch report and no
fatal error, under both loops. -/
theorem crc_mismatch_nonfatal_witness :
    runEntries (v2Entry zlibStub 11 3) [c9entry] [0] =
      ⟨[([112], [65])], [Report.crcMismatch [112]], none⟩ ∧
    runEntries (extractEntry 11 3) [c9entry] [0] =
      ⟨[([112], [65])], [Report.crcMismatch [112]], none⟩ := by
  have h := crc_mismatch_nonfatal zlibStub c9entry [] [0] [65] (by decide) (by decide)
    (by decide) c9entry [] [0] [65] (by decide) (by decide) (by decide) (by decide)
  exact ⟨h.1.trans (by decide), h.2.trans (by decide)⟩

/-- C10: with the protection tag set to 11, the v2 decode paths verify
the checksum only on Huffman entries: a store (codec 0) entry and a
zlib (codec 2) entry are written with no CRC comparison and no report,
whatever the service blob holds, in `decode_v2`; and `extract_archive`
writes every non-Huffman file entry's stored bytes untouched. -/
theorem checksum_skipped_for_store_and_zlib
    (zlibD : List Nat → Except PyErr (List Nat)) :
    (∀ (e : TocEntry) (stored : List Nat),
      v2Entry zlibD 11 0 e stored = .ok (some stored, [])) ∧
    (∀ (e : TocEntry) (stored raw : List Nat), zlibD stored = .ok raw →
      v2Entry zlibD 11 2 e stored = .ok (some raw, [])) ∧
    (∀ (e : TocEntry) (stored : List Nat) (noctx : Nat), noctx ≠ 3 → e.etype = 1 →
      extractEntry 11 noctx e stored = .ok (some stored, [])) := by
  refine ⟨?_, ?_, ?_⟩
  · intro e stored
    simp [v2Entry]
  · intro e stored raw hz
    simp [v2Entry, hz]
  · intro e stored noctx hn htype
    simp [extractEntry, htype, hn]

/-- C10 (witness): the protected entry `c9entry` — whose service blob
ends in a (wrong) stored CRC — is written without any report under
codec 0, codec 2 and `extract_archive`'s non-Huffman path. -/
theorem checksum_skipped_witness :
    v2Entry zlibStub 11 0 c9entry [9] = .ok (some [9], []) ∧
    v2Entry zlibStub 11 2 c9entry [9] = .ok (some [], []) ∧
    extractEntry 11 0 c9entry [9] = .ok (some [9], []) := by
  have h := checksum_skipped_for_store_and_zlib zlibStub
  exact ⟨h.1 c9entry [9], h.2.1 c9entry [9] [] (by decide),
    h.2.2 c9entry [9] 0 (by decide) (by decide)⟩

/-- Supporting evidence: away from the crashing empty/single-symbol
inputs the C1 claims are about, the codec pair does round-trip — here
on a seven-byte three-symbol input. -/
theorem huffman_roundtrip_seven_bytes :
    (match huffman_encode rtData with
      | .ok p => huffman_decode p.1 p.2 7
      | .error e => .error e) = .ok rtData := by decide

set_option maxRecDepth 4096 in
/-- Supporting evidence: a full protected v2 extraction round-trips —
`decode_v2` on an archive holding `huffman_encode rtData` with its
correct stored CRC writes back exactly `rtData` with no mismatch
report, and `extract_archive` agrees. -/
theorem decode_v2_roundtrip_protected :
    decode_v2 zlibStub rtArchive = ⟨[([102], rtData)], [], none⟩ ∧
    extract_archive rtArchive = ⟨[([102], rtData)], [], none⟩ := by decide

end Otik
